import Mathlib

/-!
Shallow embedding of the Vecord bridge core (src/metadata.rs, src/nostr/mod.rs,
src/discord/handler.rs, src/message.rs), with theorems checking the
natural-language specification against it.

Modelling conventions:
* An Identity (nostr PublicKey) is modelled by its canonical bech32 text form,
  wrapped in a structure; equality is exact, as in the source.
* Wall-clock time (SystemTime::now, seconds since epoch) is passed explicitly
  as a Nat parameter wherever the source reads the clock.
* The external profile fetcher (client.fetch_metadata with a 15s timeout) is
  modelled by its observable outcome: it returned attributes, it reported no
  profile found (Ok(None)), or it failed / timed out (Err).
* File persistence is I/O with no effect on the in-memory state; the in-memory
  structures are modelled, and a store is visible as a cache/registry update
  (in the source every such update is followed by a full-snapshot file write).
-/

namespace Vecord

/-- An Identity on the encrypted network (nostr PublicKey), represented by its
canonical bech32 text rendering. -/
structure PublicKey where
  bech : String
deriving DecidableEq, Repr

/-- pubkey.to_bech32() (which succeeds for every real key). -/
def PublicKey.toBech32 (p : PublicKey) : String := p.bech

/-- CACHE_LIFETIME from src/metadata.rs: one day in seconds. -/
def CACHE_LIFETIME : Nat := 60 * 60 * 24

/-- The nostr Metadata attributes used by UserMetadata::from_metadata. -/
structure Metadata where
  name : Option String
  display_name : Option String
  picture : Option String
  nip05 : Option String
  about : Option String
deriving DecidableEq, Repr

/-- struct UserMetadata from src/metadata.rs. -/
structure UserMetadata where
  pubkey : String
  name : Option String
  display_name : Option String
  picture : Option String
  nip05 : Option String
  about : Option String
  last_updated : Nat
deriving DecidableEq, Repr

/-- UserMetadata::new: default entry for a pubkey; note last_updated is 0. -/
def UserMetadata.new (p : PublicKey) : UserMetadata :=
  { pubkey := p.toBech32
    name := none
    display_name := none
    picture := none
    nip05 := none
    about := none
    last_updated := 0 }

/-- UserMetadata::from_metadata: entry from fetched attributes, stamped with
the current time. -/
def UserMetadata.from_metadata (p : PublicKey) (md : Metadata) (now : Nat) :
    UserMetadata :=
  { pubkey := p.toBech32
    name := md.name
    display_name := md.display_name
    picture := md.picture
    nip05 := md.nip05
    about := md.about
    last_updated := now }

/-- Rust str::trim, modelled structurally over the character list (leading
and trailing whitespace removed) so that concrete evaluations reduce. -/
def rustTrim (s : String) : String :=
  ⟨((s.data.dropWhile Char.isWhitespace).reverse.dropWhile
      Char.isWhitespace).reverse⟩

/-- Helper for get_best_name: an optional field counts only if its trimmed
text is non-empty (the source tests s.trim().is_empty() on each candidate). -/
def pickNonEmpty : Option String → Option String
  | some s => if rustTrim s = "" then none else some s
  | none => none

/-- UserMetadata::get_best_name: display name, else name, else nip05, else a
truncated pubkey rendering. The source slices the first 12 bytes of the
pubkey string; bech32 renderings are ASCII, so String.take agrees. -/
def UserMetadata.get_best_name (m : UserMetadata) : String :=
  match pickNonEmpty m.display_name with
  | some d => d
  | none =>
    match pickNonEmpty m.name with
    | some n => n
    | none =>
      match pickNonEmpty m.nip05 with
      | some n5 => n5
      | none =>
        if m.pubkey.startsWith ("npub") && decide (m.pubkey.length > 12) then
          m.pubkey.take 12 ++ "..."
        else
          m.pubkey

/-- UserMetadata::needs_refresh at clock reading now. -/
def UserMetadata.needs_refresh (m : UserMetadata) (now : Nat) : Bool :=
  decide (now > m.last_updated + CACHE_LIFETIME)

/-- UserMetadata::should_fetch (defined in the source but not called by
MetadataCache::fetch_metadata, which tests needs_refresh directly). -/
def UserMetadata.should_fetch (m : UserMetadata) (now : Nat) : Bool :=
  (m.name.isNone && m.display_name.isNone) || m.needs_refresh now

/-- The in-memory map of MetadataCache: bech32 key to entry, newest binding
first (HashMap modelled as an overwrite association list). -/
structure MetadataCache where
  cache : List (String × UserMetadata)
deriving DecidableEq, Repr

/-- MetadataCache::get: lookup by the bech32 rendering of the pubkey. -/
def MetadataCache.get (c : MetadataCache) (p : PublicKey) : Option UserMetadata :=
  c.cache.lookup p.toBech32

/-- MetadataCache::put: upsert keyed by the entry's own pubkey string (the
source then performs a full-snapshot file write outside the lock). -/
def MetadataCache.put (c : MetadataCache) (m : UserMetadata) : MetadataCache :=
  ⟨(m.pubkey, m) :: c.cache.filter (fun kv => kv.1 ≠ m.pubkey)⟩

/-- Observable outcome of one call to the external fetcher
(client.fetch_metadata): attributes found, none found, or failure/timeout. -/
inductive FetchResult where
  | found (md : Metadata)
  | notFound
  | err
deriving DecidableEq, Repr

/-- Result<UserMetadata> as returned by MetadataCache::fetch_metadata. -/
inductive FetchRes where
  | ok (m : UserMetadata)
  | err
deriving DecidableEq, Repr

/-- What one fetch_metadata call produced: the returned Result, the cache
state afterwards, and whether the external fetcher was invoked. -/
structure FetchOutcome where
  result : FetchRes
  cache : MetadataCache
  fetcherCalled : Bool
deriving DecidableEq, Repr

/-- The network portion of fetch_metadata (src/metadata.rs lines 183-199):
invoke the fetcher; on attributes, store and return them; on none, store and
return a default entry; on error, propagate it (the question-mark operator). -/
def MetadataCache.fetchNetwork (c : MetadataCache) (p : PublicKey)
    (fetcher : FetchResult) (now : Nat) : FetchOutcome :=
  match fetcher with
  | FetchResult.err => { result := FetchRes.err, cache := c, fetcherCalled := true }
  | FetchResult.found md =>
    let um := UserMetadata.from_metadata p md now
    { result := FetchRes.ok um, cache := c.put um, fetcherCalled := true }
  | FetchResult.notFound =>
    let um := UserMetadata.new p
    { result := FetchRes.ok um, cache := c.put um, fetcherCalled := true }

/-- MetadataCache::fetch_metadata: return a cached entry unless it
needs_refresh; otherwise go to the network. -/
def MetadataCache.fetch_metadata (c : MetadataCache) (p : PublicKey)
    (fetcher : FetchResult) (now : Nat) : FetchOutcome :=
  match c.get p with
  | some m =>
    if m.needs_refresh now = false then
      { result := FetchRes.ok m, cache := c, fetcherCalled := false }
    else
      c.fetchNetwork p fetcher now
  | none => c.fetchNetwork p fetcher now

/-- The guard under which fetch_metadata consults the external fetcher: no
cached entry, or the cached entry needs_refresh (negation of the early return
at src/metadata.rs lines 177-181). -/
def MetadataCache.consultsFetcher (c : MetadataCache) (p : PublicKey)
    (now : Nat) : Bool :=
  match c.get p with
  | some m => m.needs_refresh now
  | none => true

/-- struct SubscriberList from src/nostr/mod.rs: an in-memory set of
PublicKey (HashSet modelled as a duplicate-free list; iteration order of
get_all is the list order). File persistence accompanies every successful
mutation in the source and has no in-memory effect. -/
structure SubscriberList where
  subscribers : List PublicKey
  nodup : subscribers.Nodup

/-- SubscriberList::add: inserts, returning whether the key was newly added
(HashSet::insert semantics). -/
def SubscriberList.add (s : SubscriberList) (p : PublicKey) :
    Bool × SubscriberList :=
  if h : p ∈ s.subscribers then (false, s)
  else (true, ⟨p :: s.subscribers, List.nodup_cons.2 ⟨h, s.nodup⟩⟩)

/-- SubscriberList::remove: removes, returning whether the key was present
(HashSet::remove semantics). -/
def SubscriberList.remove (s : SubscriberList) (p : PublicKey) :
    Bool × SubscriberList :=
  if p ∈ s.subscribers then (true, ⟨s.subscribers.erase p, s.nodup.erase p⟩)
  else (false, s)

/-- SubscriberList::contains: pure lookup. -/
def SubscriberList.contains (s : SubscriberList) (p : PublicKey) : Bool :=
  decide (p ∈ s.subscribers)

/-- SubscriberList::get_all: point-in-time snapshot of the set for
iteration. -/
def SubscriberList.get_all (s : SubscriberList) : List PublicKey :=
  s.subscribers

/-- struct NostrMessageMetadata from src/message.rs. -/
structure NostrMessageMetadata where
  username : String
  pubkey : String
  avatar_url : Option String
deriving DecidableEq, Repr

/-- struct ImageAttachment from src/message.rs: raw bytes plus a
file-extension hint. -/
structure ImageAttachment where
  bytes : List Nat
  extension : String
deriving DecidableEq, Repr

/-- enum BridgeMessage from src/message.rs. The Discord variant declares an
optional image attachment field. -/
inductive BridgeMessage where
  | discord (author : String) (content : String) (image : Option ImageAttachment)
  | nostr (content : String) (metadata : NostrMessageMetadata)
deriving DecidableEq, Repr

/-- nostr Kind::PrivateDirectMessage (kind number 14). -/
def kindPrivateDirectMessage : Nat := 14

/-- Reply text sent on a successful !subscribe. -/
def msgNowSubscribed : String :=
  "You are now subscribed to the Discord channel. You will receive all messages from the Discord channel. Send !unsubscribe to stop receiving messages."

/-- Reply text sent on !subscribe from an existing subscriber. -/
def msgAlreadySubscribed : String :=
  "You are already subscribed to the Discord channel."

/-- Reply text sent on a successful !unsubscribe. -/
def msgUnsubscribed : String :=
  "You have been unsubscribed from the Discord channel. You will no longer receive messages."

/-- Reply text sent on !unsubscribe from a non-subscriber. -/
def msgNotCurrentlySubscribed : String :=
  "You are not currently subscribed to the Discord channel."

/-- Reply text sent on !help. -/
def msgHelp : String :=
  "Available commands:\n!subscribe - Start receiving Discord messages\n!unsubscribe - Stop receiving Discord messages\n!help - Show this help message"

/-- Notice sent to a non-subscriber whose message is not relayed. -/
def msgNotSubscribedNotice : String :=
  "Your message was not forwarded to Discord because you\x27re not subscribed. Send !subscribe to start forwarding your messages."

/-- Terminal state of one inbound message, as in the spec state machine. -/
inductive InboundTerminal where
  | SelfFiltered
  | KindFiltered
  | CommandHandled
  | NotSubscribed
  | Relayed
deriving DecidableEq, Repr

/-- Everything one pass of the inbound handler produced: terminal state, the
private messages sent back over the encrypted transport, the messages
enqueued toward the Discord channel, and the resulting registry and
metadata-cache states. -/
structure InboundResult where
  state : InboundTerminal
  privateSends : List (PublicKey × String)
  discordEnqueued : List BridgeMessage
  registry : SubscriberList
  cache : MetadataCache
  fetcherCalled : Bool

/-- The inbound notification handler of NostrClient::start
(src/nostr/mod.rs lines 230-334), for one successfully decrypted event:
self-filter on the outer event pubkey, kind gate, command branches,
subscription gate, then metadata resolution (falling back to
UserMetadata::new on a fetch error) and enqueue toward Discord. -/
def handleInbound (myPubkey eventPubkey sender : PublicKey) (kind : Nat)
    (content : String) (subs : SubscriberList) (cache : MetadataCache)
    (fetcher : FetchResult) (now : Nat) : InboundResult :=
  if eventPubkey = myPubkey then
    { state := InboundTerminal.SelfFiltered, privateSends := []
      discordEnqueued := [], registry := subs, cache := cache
      fetcherCalled := false }
  else if kind ≠ kindPrivateDirectMessage then
    { state := InboundTerminal.KindFiltered, privateSends := []
      discordEnqueued := [], registry := subs, cache := cache
      fetcherCalled := false }
  else
    let messageContent := rustTrim content
    if messageContent = "!subscribe" then
      let r := subs.add sender
      if r.1 then
        { state := InboundTerminal.CommandHandled
          privateSends := [(sender, msgNowSubscribed)]
          discordEnqueued := [], registry := r.2, cache := cache
          fetcherCalled := false }
      else
        { state := InboundTerminal.CommandHandled
          privateSends := [(sender, msgAlreadySubscribed)]
          discordEnqueued := [], registry := r.2, cache := cache
          fetcherCalled := false }
    else if messageContent = "!unsubscribe" then
      let r := subs.remove sender
      if r.1 then
        { state := InboundTerminal.CommandHandled
          privateSends := [(sender, msgUnsubscribed)]
          discordEnqueued := [], registry := r.2, cache := cache
          fetcherCalled := false }
      else
        { state := InboundTerminal.CommandHandled
          privateSends := [(sender, msgNotCurrentlySubscribed)]
          discordEnqueued := [], registry := r.2, cache := cache
          fetcherCalled := false }
    else if messageContent = "!help" then
      { state := InboundTerminal.CommandHandled
        privateSends := [(sender, msgHelp)]
        discordEnqueued := [], registry := subs, cache := cache
        fetcherCalled := false }
    else if subs.contains sender then
      let fo := cache.fetch_metadata sender fetcher now
      let metadata :=
        match fo.result with
        | FetchRes.ok m => m
        | FetchRes.err => UserMetadata.new sender
      { state := InboundTerminal.Relayed, privateSends := []
        discordEnqueued :=
          [BridgeMessage.nostr messageContent
            { username := metadata.get_best_name
              pubkey := sender.toBech32
              avatar_url := metadata.picture }]
        registry := subs, cache := fo.cache
        fetcherCalled := fo.fetcherCalled }
    else
      { state := InboundTerminal.NotSubscribed
        privateSends := [(sender, msgNotSubscribedNotice)]
        discordEnqueued := [], registry := subs, cache := cache
        fetcherCalled := false }

/-- The text format of the outbound sender task:
format!(\x7b\x7d applied as "[Discord] <author>: <content>"). -/
def formatNostrMessage (author content : String) : String :=
  "[Discord] " ++ author ++ ": " ++ content

/-- One private-send attempt of the outbound fan-out: recipient, the text
handed to send_private_message, and whether that send reported success. -/
structure SendAttempt where
  recipient : PublicKey
  text : String
  ok : Bool
deriving DecidableEq, Repr

/-- One iteration of the outbound sender task of NostrClient::start
(src/nostr/mod.rs lines 190-211): on a Discord-variant message, format the
text, snapshot the registry with get_all, and attempt one
send_private_message per subscriber; a failed send is logged and the loop
continues. Non-Discord variants are skipped. The send carries text only. -/
def outboundStep (msg : BridgeMessage) (subs : SubscriberList)
    (sendOk : PublicKey → Bool) : List SendAttempt :=
  match msg with
  | BridgeMessage.discord author content _image =>
    (subs.get_all).map (fun p =>
      { recipient := p, text := formatNostrMessage author content
        ok := sendOk p })
  | BridgeMessage.nostr _ _ => []

/-- serenity MessageType, reduced to the variants the handler tests plus a
representative of all remaining kinds. -/
inductive DiscordMessageType where
  | regular
  | inlineReply
  | other
deriving DecidableEq, Repr

/-- A gateway message event as seen by Handler::message: channel, bot flag,
kind, author name, content, and the attachments the gateway supplied. -/
structure DiscordMessageEvent where
  channel_id : Nat
  author_bot : Bool
  kind : DiscordMessageType
  author_name : String
  content : String
  attachments : List ImageAttachment
deriving DecidableEq, Repr

/-- Handler::message from src/discord/handler.rs: drop events from other
channels, from bot authors, and of kinds other than Regular and InlineReply;
otherwise enqueue a Discord-variant BridgeMessage built from the author name
and content. The construction site reads neither msg.attachments nor the
image field, so the enqueued message carries no attachment. -/
def handlerMessage (channelId : Nat) (m : DiscordMessageEvent) :
    Option BridgeMessage :=
  if m.channel_id ≠ channelId then none
  else if m.author_bot then none
  else if m.kind ≠ DiscordMessageType.regular ∧
      m.kind ≠ DiscordMessageType.inlineReply then none
  else some (BridgeMessage.discord m.author_name m.content none)

/-- The empty registry (fresh start, no subscribers file). -/
def emptySubs : SubscriberList := ⟨[], List.nodup_nil⟩

/-- The empty metadata cache. -/
def emptyCache : MetadataCache := ⟨[]⟩

/-- A concrete recipient Identity used in counterexamples. -/
def pkA : PublicKey := ⟨"npub1recipienta"⟩

/-- A second concrete recipient Identity used in counterexamples. -/
def pkB : PublicKey := ⟨"npub1recipientb"⟩

/-- A concrete registry holding the two recipients. -/
def subsAB : SubscriberList := ⟨[pkA, pkB], by decide⟩

/-- Helper: membership in the registry after add. -/
theorem SubscriberList.mem_add_self (s : SubscriberList) (p : PublicKey) :
    p ∈ (s.add p).2.subscribers := by
  by_cases h : p ∈ s.subscribers
  · simp [SubscriberList.add, h]
  · simp [SubscriberList.add, h]

/-- Helper: add reports whether the key was newly added. -/
theorem SubscriberList.add_fst (s : SubscriberList) (p : PublicKey) :
    (s.add p).1 = !(s.contains p) := by
  by_cases h : p ∈ s.subscribers <;>
    simp [SubscriberList.add, SubscriberList.contains, h]

/-- Helper: remove reports whether the key was present. -/
theorem SubscriberList.remove_fst (s : SubscriberList) (p : PublicKey) :
    (s.remove p).1 = s.contains p := by
  by_cases h : p ∈ s.subscribers <;>
    simp [SubscriberList.remove, SubscriberList.contains, h]

/-- Helper: the key is present after add. -/
theorem SubscriberList.contains_add_self (s : SubscriberList) (p : PublicKey) :
    (s.add p).2.contains p = true := by
  simp [SubscriberList.contains, s.mem_add_self p]

/-- Helper: the key is absent after remove. -/
theorem SubscriberList.contains_remove_self (s : SubscriberList)
    (p : PublicKey) :
    (s.remove p).2.contains p = false := by
  by_cases h : p ∈ s.subscribers
  · simp [SubscriberList.remove, SubscriberList.contains, h]
    exact s.nodup.not_mem_erase
  · simp [SubscriberList.remove, SubscriberList.contains, h]

/-- Helper: a second add of the same key reports false. -/
theorem SubscriberList.add_add_fst (s : SubscriberList) (p : PublicKey) :
    ((s.add p).2.add p).1 = false := by
  rw [SubscriberList.add_fst, s.contains_add_self p]
  rfl

/-- Helper: adding an absent key puts it at the head of the list. -/
theorem SubscriberList.add_snd_of_not_mem (s : SubscriberList) (p : PublicKey)
    (h : p ∉ s.subscribers) :
    (s.add p).2.subscribers = p :: s.subscribers := by
  simp [SubscriberList.add, h]

/-- Helper: adding a present key leaves the registry unchanged. -/
theorem SubscriberList.add_snd_of_mem (s : SubscriberList) (p : PublicKey)
    (h : p ∈ s.subscribers) : (s.add p).2 = s := by
  simp [SubscriberList.add, h]

/-- C6: for every Identity and registry state, add makes contains true,
remove makes contains false, add returns whether the key was newly added
(so from a state not containing it, two adds return true then false), and
remove returns whether the key was present. -/
theorem subscriberList_algebra (s : SubscriberList) (p : PublicKey) :
    ((s.add p).2.contains p = true) ∧
    ((s.remove p).2.contains p = false) ∧
    ((s.add p).1 = !(s.contains p)) ∧
    (((s.add p).2.add p).1 = false) ∧
    ((s.remove p).1 = s.contains p) :=
  ⟨s.contains_add_self p, s.contains_remove_self p, s.add_fst p,
    s.add_add_fst p, s.remove_fst p⟩

/-- Helper: a field accepted by pickNonEmpty is a non-empty string. -/
theorem pickNonEmpty_ne_empty {o : Option String} {s : String}
    (h : pickNonEmpty o = some s) : s ≠ "" := by
  cases o with
  | none => simp [pickNonEmpty] at h
  | some t =>
    by_cases ht : rustTrim t = ""
    · simp [pickNonEmpty, ht] at h
    · simp [pickNonEmpty, ht] at h
      subst h
      intro h0
      rw [h0] at ht
      exact ht (by decide)

/-- Helper: the truncated pubkey rendering is a non-empty string. -/
theorem take_dots_ne_empty (s : String) : s.take 12 ++ "..." ≠ "" := by
  intro hcontra
  have hlen := congrArg String.length hcontra
  rw [String.length_append] at hlen
  have h3 : ("..." : String).length = 3 := by decide
  have h0 : ("" : String).length = 0 := by decide
  rw [h3, h0] at hlen
  omega

/-- C7: best_name is non-empty for every Profile whose Identity rendering is
non-empty (every bech32 or hex rendering is), including a Profile with all
optional fields unset: the fallback chain ends at the pubkey itself or its
truncation. -/
theorem best_name_nonempty (m : UserMetadata) (h : m.pubkey ≠ "") :
    m.get_best_name ≠ "" := by
  unfold UserMetadata.get_best_name
  cases hd : pickNonEmpty m.display_name with
  | some d => exact pickNonEmpty_ne_empty hd
  | none =>
    cases hn : pickNonEmpty m.name with
    | some n => exact pickNonEmpty_ne_empty hn
    | none =>
      cases h5 : pickNonEmpty m.nip05 with
      | some n5 => exact pickNonEmpty_ne_empty h5
      | none =>
        by_cases hb : (m.pubkey.startsWith ("npub") &&
            decide (m.pubkey.length > 12)) = true
        · simp only [hb, if_true]
          exact take_dots_ne_empty m.pubkey
        · simp only [hb, if_false, Bool.not_eq_true] at *
          simpa [hb] using h

/-- C7 witness: a Profile with every optional field unset, built by
UserMetadata::new from a concrete Identity, has a non-empty best_name. -/
theorem best_name_nonempty_witness :
    ((UserMetadata.new ⟨"npub1vecordexample"⟩).pubkey ≠ "") ∧
    ((UserMetadata.new ⟨"npub1vecordexample"⟩).get_best_name ≠ "") :=
  ⟨by decide, best_name_nonempty (UserMetadata.new ⟨"npub1vecordexample"⟩)
    (by decide)⟩

/-- Helper: a get after a put whose entry is keyed by the same Identity
returns that entry. -/
theorem MetadataCache.get_put (c : MetadataCache) (m : UserMetadata)
    (p : PublicKey) (h : m.pubkey = p.toBech32) : (c.put m).get p = some m := by
  simp [MetadataCache.put, MetadataCache.get, List.lookup, h]

/-- C3 (code_bug evidence): after a first fetch whose fetcher reported no
profile found, the cached default entry carries last_updated 0, so a second
fetch one second later, well inside the 24-hour window, invokes the external
fetcher again. -/
theorem fetch_refetches_within_window :
    ((emptyCache.fetch_metadata ⟨"npub1aaa"⟩ FetchResult.notFound
        1000000).fetcherCalled = true) ∧
    (((emptyCache.fetch_metadata ⟨"npub1aaa"⟩ FetchResult.notFound
        1000000).cache.fetch_metadata ⟨"npub1aaa"⟩ FetchResult.notFound
        1000001).fetcherCalled = true) ∧
    (1000001 ≤ 1000000 + CACHE_LIFETIME) := by decide

/-- C4 counterexample: when the external fetcher fails, fetch_metadata
propagates the error instead of returning a default Profile. -/
theorem fetch_error_counterexample :
    (emptyCache.fetch_metadata ⟨"npub1aaa"⟩ FetchResult.err 1000).result =
      FetchRes.err := by decide

/-- C4 amended: whenever fetch_metadata consults the fetcher, a "no profile
found" outcome yields the default empty Profile, stored in the cache (the
store triggers the full-snapshot persistence write in the source) and
returned; a fetcher failure makes fetch_metadata return the error. -/
theorem fetch_default_on_miss (c : MetadataCache) (p : PublicKey) (now : Nat)
    (h : c.consultsFetcher p now = true) :
    ((c.fetch_metadata p FetchResult.notFound now).result =
      FetchRes.ok (UserMetadata.new p)) ∧
    ((c.fetch_metadata p FetchResult.notFound now).cache.get p =
      some (UserMetadata.new p)) ∧
    ((c.fetch_metadata p FetchResult.err now).result = FetchRes.err) := by
  have hput := c.get_put (UserMetadata.new p) p rfl
  unfold MetadataCache.consultsFetcher at h
  cases hget : c.get p with
  | none =>
    simp [MetadataCache.fetch_metadata, MetadataCache.fetchNetwork, hget, hput]
  | some m =>
    rw [hget] at h
    have h2 : m.needs_refresh now = true := h
    simp [MetadataCache.fetch_metadata, MetadataCache.fetchNetwork, hget, h2,
      hput]

/-- C4 witness: at an empty cache the fetcher is consulted; a notFound
outcome stores and returns the default Profile, and a fetcher error is
returned as an error. -/
theorem fetch_default_on_miss_witness :
    (emptyCache.consultsFetcher ⟨"npub1bbb"⟩ 500 = true) ∧
    ((emptyCache.fetch_metadata ⟨"npub1bbb"⟩ FetchResult.notFound 500).result =
      FetchRes.ok (UserMetadata.new ⟨"npub1bbb"⟩)) ∧
    ((emptyCache.fetch_metadata ⟨"npub1bbb"⟩ FetchResult.notFound
        500).cache.get ⟨"npub1bbb"⟩ = some (UserMetadata.new ⟨"npub1bbb"⟩)) ∧
    ((emptyCache.fetch_metadata ⟨"npub1bbb"⟩ FetchResult.err 500).result =
      FetchRes.err) :=
  ⟨by decide, fetch_default_on_miss emptyCache ⟨"npub1bbb"⟩ 500 (by decide)⟩

/-- C8 counterexample: a cached Profile whose name and display-name fields
are both unset but whose timestamp is inside the 24-hour window is returned
from the cache without invoking the fetcher; the unused should_fetch helper
would have said to fetch it. -/
theorem fresh_nameless_served_from_cache :
    (((emptyCache.put (UserMetadata.from_metadata ⟨"npub1ccc"⟩
        ⟨none, none, none, none, none⟩ 1000)).fetch_metadata ⟨"npub1ccc"⟩
        FetchResult.notFound 1000).fetcherCalled = false) ∧
    ((UserMetadata.from_metadata ⟨"npub1ccc"⟩ ⟨none, none, none, none, none⟩
        1000).should_fetch 1000 = true) := by decide

/-- C8 amended: refresh eligibility inside fetch_metadata depends only on
age: any cached entry that does not need an age-based refresh, including one
with both name fields empty, is returned as-is with no fetcher invocation
(the both-names-empty condition appears only in should_fetch, which
fetch_metadata does not consult). -/
theorem fetch_fresh_no_fetcher (c : MetadataCache) (p : PublicKey)
    (fetcher : FetchResult) (now : Nat) (m : UserMetadata)
    (hm : c.get p = some m) (hfresh : m.needs_refresh now = false) :
    c.fetch_metadata p fetcher now =
      { result := FetchRes.ok m, cache := c, fetcherCalled := false } := by
  unfold MetadataCache.fetch_metadata
  rw [hm]
  simp [hfresh]

/-- C8 witness: a concrete fresh, nameless cache entry is served from the
cache with no fetcher call. -/
theorem fetch_fresh_no_fetcher_witness :
    ((emptyCache.put (UserMetadata.from_metadata ⟨"npub1ddd"⟩
        ⟨none, none, none, none, none⟩ 2000)).get ⟨"npub1ddd"⟩ =
      some (UserMetadata.from_metadata ⟨"npub1ddd"⟩
        ⟨none, none, none, none, none⟩ 2000)) ∧
    ((UserMetadata.from_metadata ⟨"npub1ddd"⟩ ⟨none, none, none, none, none⟩
        2000).needs_refresh 2500 = false) ∧
    ((emptyCache.put (UserMetadata.from_metadata ⟨"npub1ddd"⟩
        ⟨none, none, none, none, none⟩ 2000)).fetch_metadata ⟨"npub1ddd"⟩
        FetchResult.notFound 2500 =
      { result := FetchRes.ok (UserMetadata.from_metadata ⟨"npub1ddd"⟩
          ⟨none, none, none, none, none⟩ 2000)
        cache := emptyCache.put (UserMetadata.from_metadata ⟨"npub1ddd"⟩
          ⟨none, none, none, none, none⟩ 2000)
        fetcherCalled := false }) :=
  ⟨by decide, by decide,
    fetch_fresh_no_fetcher _ _ FetchResult.notFound 2500 _ (by decide)
      (by decide)⟩

/-- C1: an inbound private message whose trimmed text is not a recognized
command, from a sender not in the registry, yields exactly one private
not-subscribed notice to the sender, enqueues nothing toward Discord,
terminates in NotSubscribed, and leaves the registry (and cache) unchanged;
the fetcher is not consulted. -/
theorem not_subscribed_notice (my ev sender : PublicKey) (content : String)
    (subs : SubscriberList) (cache : MetadataCache) (fetcher : FetchResult)
    (now : Nat) (hev : ev ≠ my)
    (h1 : rustTrim content ≠ "!subscribe")
    (h2 : rustTrim content ≠ "!unsubscribe")
    (h3 : rustTrim content ≠ "!help")
    (h4 : subs.contains sender = false) :
    handleInbound my ev sender kindPrivateDirectMessage content subs cache
        fetcher now =
      { state := InboundTerminal.NotSubscribed
        privateSends := [(sender, msgNotSubscribedNotice)]
        discordEnqueued := [], registry := subs, cache := cache
        fetcherCalled := false } := by
  simp [handleInbound, hev, h1, h2, h3, h4]

/-- C1 witness: a concrete non-subscriber sending "hello" gets exactly the
not-subscribed notice and nothing is enqueued. -/
theorem not_subscribed_notice_witness :
    handleInbound ⟨"npub1me"⟩ ⟨"npub1outer"⟩ ⟨"npub1sender"⟩
        kindPrivateDirectMessage "hello" emptySubs emptyCache FetchResult.err
        0 =
      { state := InboundTerminal.NotSubscribed
        privateSends := [(⟨"npub1sender"⟩, msgNotSubscribedNotice)]
        discordEnqueued := [], registry := emptySubs, cache := emptyCache
        fetcherCalled := false } :=
  not_subscribed_notice ⟨"npub1me"⟩ ⟨"npub1outer"⟩ ⟨"npub1sender"⟩ "hello"
    emptySubs emptyCache FetchResult.err 0 (by decide) (by decide) (by decide)
    (by decide) (by decide)

/-- Helper: the subscribe branch of the inbound handler, for any registry
state: the sender is added and the reply depends on prior membership. -/
theorem handleInbound_subscribe_eq (my ev sender : PublicKey)
    (content : String) (subs : SubscriberList) (cache : MetadataCache)
    (fetcher : FetchResult) (now : Nat) (hev : ev ≠ my)
    (hc : rustTrim content = "!subscribe") :
    handleInbound my ev sender kindPrivateDirectMessage content subs cache
        fetcher now =
      { state := InboundTerminal.CommandHandled
        privateSends := [(sender,
          if subs.contains sender then msgAlreadySubscribed
          else msgNowSubscribed)]
        discordEnqueued := [], registry := (subs.add sender).2
        cache := cache, fetcherCalled := false } := by
  by_cases hmem : sender ∈ subs.subscribers <;>
    simp [handleInbound, hev, hc, SubscriberList.add, SubscriberList.contains,
      hmem]

/-- C5: the command table. A trimmed "!subscribe" adds the sender and
replies now-subscribed or already-subscribed; "!unsubscribe" removes and
replies unsubscribed or not-currently-subscribed; "!help" replies the static
command list with no registry change; each command enqueues nothing toward
Discord; any other text leaves the registry unchanged; and from a
non-subscribed state, "!subscribe" twice replies now-subscribed then
already-subscribed and leaves exactly one registry entry for the sender. -/
theorem command_interpreter (my ev sender : PublicKey) (content : String)
    (subs : SubscriberList) (cache : MetadataCache) (fetcher : FetchResult)
    (now : Nat) (hev : ev ≠ my) :
    (rustTrim content = "!subscribe" →
      handleInbound my ev sender kindPrivateDirectMessage content subs cache
          fetcher now =
        { state := InboundTerminal.CommandHandled
          privateSends := [(sender,
            if subs.contains sender then msgAlreadySubscribed
            else msgNowSubscribed)]
          discordEnqueued := [], registry := (subs.add sender).2
          cache := cache, fetcherCalled := false }) ∧
    (rustTrim content = "!unsubscribe" →
      handleInbound my ev sender kindPrivateDirectMessage content subs cache
          fetcher now =
        { state := InboundTerminal.CommandHandled
          privateSends := [(sender,
            if subs.contains sender then msgUnsubscribed
            else msgNotCurrentlySubscribed)]
          discordEnqueued := [], registry := (subs.remove sender).2
          cache := cache, fetcherCalled := false }) ∧
    (rustTrim content = "!help" →
      handleInbound my ev sender kindPrivateDirectMessage content subs cache
          fetcher now =
        { state := InboundTerminal.CommandHandled
          privateSends := [(sender, msgHelp)]
          discordEnqueued := [], registry := subs, cache := cache
          fetcherCalled := false }) ∧
    (rustTrim content ≠ "!subscribe" → rustTrim content ≠ "!unsubscribe" →
      rustTrim content ≠ "!help" →
      (handleInbound my ev sender kindPrivateDirectMessage content subs cache
          fetcher now).registry = subs) ∧
    (subs.contains sender = false →
      ((handleInbound my ev sender kindPrivateDirectMessage "!subscribe" subs
          cache fetcher now).privateSends = [(sender, msgNowSubscribed)]) ∧
      ((handleInbound my ev sender kindPrivateDirectMessage "!subscribe"
          (handleInbound my ev sender kindPrivateDirectMessage "!subscribe"
            subs cache fetcher now).registry cache fetcher
          now).privateSends = [(sender, msgAlreadySubscribed)]) ∧
      ((handleInbound my ev sender kindPrivateDirectMessage "!subscribe"
          (handleInbound my ev sender kindPrivateDirectMessage "!subscribe"
            subs cache fetcher now).registry cache fetcher
          now).registry.subscribers.count sender = 1)) := by
  have hsub : rustTrim "!subscribe" = "!subscribe" := by decide
  refine ⟨?_, ?_, ?_, ?_, ?_⟩
  · intro hc
    exact handleInbound_subscribe_eq my ev sender content subs cache fetcher
      now hev hc
  · intro hc
    have hne : rustTrim content ≠ "!subscribe" := by
      rw [hc]; decide
    by_cases hmem : sender ∈ subs.subscribers <;>
      simp [handleInbound, hev, hc, hne, SubscriberList.remove,
        SubscriberList.contains, hmem]
  · intro hc
    have hne1 : rustTrim content ≠ "!subscribe" := by rw [hc]; decide
    have hne2 : rustTrim content ≠ "!unsubscribe" := by rw [hc]; decide
    simp [handleInbound, hev, hc, hne1, hne2]
  · intro hne1 hne2 hne3
    by_cases hmem : subs.contains sender <;>
      simp [handleInbound, hev, hne1, hne2, hne3, hmem]
  · intro hnm
    have hmem : sender ∉ subs.subscribers := by
      simpa [SubscriberList.contains] using hnm
    have hr1 := handleInbound_subscribe_eq my ev sender "!subscribe" subs
      cache fetcher now hev hsub
    have hreg1 : (handleInbound my ev sender kindPrivateDirectMessage
        "!subscribe" subs cache fetcher now).registry = (subs.add sender).2 :=
      by rw [hr1]
    have hr2 := handleInbound_subscribe_eq my ev sender "!subscribe"
      (subs.add sender).2 cache fetcher now hev hsub
    have hc1 : (subs.add sender).2.contains sender = true :=
      subs.contains_add_self sender
    refine ⟨?_, ?_, ?_⟩
    · rw [hr1]
      simp [hnm]
    · rw [hreg1, hr2]
      simp [hc1]
    · rw [hreg1, hr2]
      show ((subs.add sender).2.add sender).2.subscribers.count sender = 1
      rw [SubscriberList.add_snd_of_mem _ _ (subs.mem_add_self sender),
        SubscriberList.add_snd_of_not_mem _ _ hmem]
      simp [List.count_cons_self, List.count_eq_zero.2 hmem]

/-- C5 witness: a concrete sender subscribing twice from an empty registry
gets now-subscribed then already-subscribed and one registry entry. -/
theorem command_interpreter_witness :
    ((handleInbound ⟨"npub1me"⟩ ⟨"npub1outer"⟩ ⟨"npub1sender"⟩
        kindPrivateDirectMessage "!subscribe" emptySubs emptyCache
        FetchResult.err 0).privateSends =
      [(⟨"npub1sender"⟩, msgNowSubscribed)]) ∧
    ((handleInbound ⟨"npub1me"⟩ ⟨"npub1outer"⟩ ⟨"npub1sender"⟩
        kindPrivateDirectMessage "!subscribe"
        (handleInbound ⟨"npub1me"⟩ ⟨"npub1outer"⟩ ⟨"npub1sender"⟩
          kindPrivateDirectMessage "!subscribe" emptySubs emptyCache
          FetchResult.err 0).registry emptyCache FetchResult.err
        0).privateSends = [(⟨"npub1sender"⟩, msgAlreadySubscribed)]) ∧
    ((handleInbound ⟨"npub1me"⟩ ⟨"npub1outer"⟩ ⟨"npub1sender"⟩
        kindPrivateDirectMessage "!subscribe"
        (handleInbound ⟨"npub1me"⟩ ⟨"npub1outer"⟩ ⟨"npub1sender"⟩
          kindPrivateDirectMessage "!subscribe" emptySubs emptyCache
          FetchResult.err 0).registry emptyCache FetchResult.err
        0).registry.subscribers.count ⟨"npub1sender"⟩ = 1) :=
  (command_interpreter ⟨"npub1me"⟩ ⟨"npub1outer"⟩ ⟨"npub1sender"⟩
    "!subscribe" emptySubs emptyCache FetchResult.err 0
    (by decide)).2.2.2.2 (by decide)

/-- C2 counterexample: with two subscribers and the first send failing, both
send attempts occur, but each carries "[Discord] alice: hi", not
"[alice]: hi" as the claim states. -/
theorem outbound_format_counterexample :
    ((outboundStep (BridgeMessage.discord "alice" "hi" none) subsAB
        (fun p => decide (p = pkB))).map SendAttempt.ok = [false, true]) ∧
    ((outboundStep (BridgeMessage.discord "alice" "hi" none) subsAB
        (fun p => decide (p = pkB))).map SendAttempt.text =
      ["[Discord] alice: hi", "[Discord] alice: hi"]) ∧
    (formatNostrMessage "alice" "hi" ≠ "[alice]: hi") := by decide

/-- C2 amended: the outbound loop snapshots the registry and makes exactly
one private-send attempt per Identity in the snapshot, each carrying the
text formatted as "[Discord] <author>: <content>"; the attempts made (their
recipients and texts) are the same whatever each individual send returns, so
a failing send does not prevent the attempt to any remaining recipient. -/
theorem outbound_fanout (author content : String)
    (img : Option ImageAttachment) (subs : SubscriberList)
    (sendOk : PublicKey → Bool) :
    (outboundStep (BridgeMessage.discord author content img) subs
        sendOk).map (fun a => (a.recipient, a.text)) =
      subs.get_all.map
        (fun p => (p, formatNostrMessage author content)) := by
  simp [outboundStep, List.map_map]

/-- C9 counterexample: an inline-reply event, whose kind is not the regular
kind, from a non-bot author in the configured channel, is enqueued rather
than ignored. -/
theorem handler_inline_reply_enqueued :
    (handlerMessage 5
        { channel_id := 5, author_bot := false
          kind := DiscordMessageType.inlineReply, author_name := "bob"
          content := "hey", attachments := [] } =
      some (BridgeMessage.discord "bob" "hey" none)) ∧
    (DiscordMessageType.inlineReply ≠ DiscordMessageType.regular) := by
  decide

/-- C9 amended: the handler enqueues exactly when the event is on the
configured channel, its author is not a bot, and its kind is regular or
inline-reply; every other event is ignored. -/
theorem handler_gating (cid : Nat) (m : DiscordMessageEvent) :
    handlerMessage cid m =
      if m.channel_id = cid ∧ m.author_bot = false ∧
          (m.kind = DiscordMessageType.regular ∨
            m.kind = DiscordMessageType.inlineReply)
      then some (BridgeMessage.discord m.author_name m.content none)
      else none := by
  by_cases hc : m.channel_id = cid
  · cases hb : m.author_bot
    · cases hk : m.kind <;> simp [handlerMessage, hc, hb, hk]
    · simp [handlerMessage, hc, hb]
  · simp [handlerMessage, hc]

/-- C10 counterexample: a gateway event carrying an image attachment is
enqueued with no attachment, and the outbound fan-out produces identical
send attempts whether or not the chat-origin message carries an image: the
attachment bytes are never handed to the transport. -/
theorem attachment_dropped_counterexample :
    (handlerMessage 5
        { channel_id := 5, author_bot := false
          kind := DiscordMessageType.regular, author_name := "alice"
          content := "hi", attachments := [⟨[1, 2, 3], "png"⟩] } =
      some (BridgeMessage.discord "alice" "hi" none)) ∧
    (outboundStep (BridgeMessage.discord "alice" "hi"
        (some ⟨[1, 2, 3], "png"⟩)) subsAB (fun _ => true) =
      outboundStep (BridgeMessage.discord "alice" "hi" none) subsAB
        (fun _ => true)) := by decide

/-- C10 amended: image attachments are not relayed: the gateway handler
enqueues the chat-origin message with its image field unset regardless of
the attachments on the event, and the outbound fan-out sends only the
formatted text, producing the same attempts whether or not an image is
present. -/
theorem attachments_not_relayed (cid : Nat) (m : DiscordMessageEvent)
    (author content : String) (img : Option ImageAttachment)
    (subs : SubscriberList) (sendOk : PublicKey → Bool) :
    (handlerMessage cid m = none ∨
      handlerMessage cid m =
        some (BridgeMessage.discord m.author_name m.content none)) ∧
    (outboundStep (BridgeMessage.discord author content img) subs sendOk =
      outboundStep (BridgeMessage.discord author content none) subs
        sendOk) := by
  constructor
  · unfold handlerMessage
    split_ifs <;> simp
  · rfl

end Vecord
